import Mathlib

/-!
Shallow embedding of the amc-alist-mcp service (TypeScript) in Lean 4.

The embedding covers:
* the vendor API adapter (`AMCClient` in `src/amcClient.ts`):
  `getNowPlayingMovies`, `getTheatersByZip`;
* the tool layer (`MCPTools` in `src/mcpTools.ts`):
  `listTheaters`, `listShowtimes`, `reserveTickets`;
* the browser automation driver (`PlaywrightBookingService` in
  `src/playwrightBookingService.ts`): `handleLogin`, `selectSeats`,
  `completeBooking`, `bookTickets`, `cleanup`.

External effects (HTTP responses, page states, element visibility, thrown
exceptions of awaited browser actions) are supplied by explicit environment
records; a step that can throw is an `Except String Unit` value in the
environment (`.error msg` = the awaited promise rejects with message `msg`).
Traces record the observable side effects (vendor calls issued, seat elements
clicked, page/context/browser lifecycle events) so that resource-safety and
"no call is made" properties are statable.
-/

/-- JavaScript truthiness of `string | null | undefined`: `null`, `undefined`
and the empty string are falsy. -/
def jsTruthyStr (o : Option String) : Bool :=
  match o with
  | none => false
  | some s => s ≠ ""

/-- JavaScript `a || b` where `a : string | null | undefined`: keeps `a`
unless it is falsy (absent or empty). -/
def jsOrStr (o : Option String) (d : String) : String :=
  match o with
  | none => d
  | some s => if s = "" then d else s

/-- JavaScript `a || b` where `a` is an array field that may be absent:
a present array is truthy even when empty, so only absence falls through. -/
def jsOrListO {α : Type} (o : Option (List α)) (d : List α) : List α :=
  match o with
  | none => d
  | some l => l

/-! ## Vendor API adapter: movie-list envelope normalization

`AMCClient.getNowPlayingMovies` (src/amcClient.ts):
```ts
if (response.data._embedded && response.data._embedded.movies) {
  return response.data._embedded.movies;
}
return response.data.movies || response.data.data || [];
```
The movie items themselves are passed through untouched, so the response is
polymorphic in the item type. -/

/-- The `_embedded` sub-object of a vendor movie-list response. -/
structure MoviesEmbedded (α : Type) where
  movies : Option (List α) := none

/-- A parseable vendor movie-list response body: the list may sit under
`_embedded.movies` (HAL), `movies`, or `data`, or under none of them. -/
structure MoviesResponse (α : Type) where
  embedded : Option (MoviesEmbedded α) := none
  movies : Option (List α) := none
  data : Option (List α) := none

/-- `AMCClient.getNowPlayingMovies`, given the parsed response body. -/
def getNowPlayingMovies {α : Type} (r : MoviesResponse α) : List α :=
  match r.embedded with
  | some emb =>
    match emb.movies with
    | some ms => ms
    | none => jsOrListO r.movies (jsOrListO r.data [])
  | none => jsOrListO r.movies (jsOrListO r.data [])

/-- The spec's words for the same operation: check the known locations in the
fixed priority order `_embedded.movies`, `movies`, `data` and return the first
present (non-null) match, defaulting to the empty list. Used to state the
amended C4. -/
def firstPresentMovies {α : Type} (r : MoviesResponse α) : List α :=
  match r.embedded.bind (fun emb => emb.movies) with
  | some ms => ms
  | none =>
    match r.movies with
    | some ms => ms
    | none =>
      match r.data with
      | some ms => ms
      | none => []

/-! ## Vendor API adapter: theaters by ZIP

`AMCClient.getTheatersByZip` (src/amcClient.ts): two-step resolution via
`/location-suggestions` then `/locations`, with a legacy `/theatres` fallback.
Vendor errors thrown by an awaited call propagate out (the `catch` block logs
and rethrows). URL parsing of the suggestion link is modelled as query-string
extraction (`searchParams.get`). -/

/-- Postal address of the normalized `AMCTheater` entity. -/
structure TheaterAddress where
  street : String
  city : String
  state : String
  zipCode : String
  country : String
deriving DecidableEq

/-- The normalized `AMCTheater` entity (src/types.ts). The float-valued
`distance` is carried verbatim and modelled as a rational. -/
structure AMCTheater where
  id : String
  name : String
  address : TheaterAddress
  phone : Option String := none
  amenities : List String := []
  distance : Option Rat := none
deriving DecidableEq

/-- The locations link of a location suggestion:
`suggestion._links["https://api.amctheatres.com/rels/v2/locations"]`. -/
structure SuggestionLink where
  href : String
deriving DecidableEq

/-- One entry of `_embedded.suggestions`; `locationsLink = none` models the
rel key being absent from `_links`. -/
structure Suggestion where
  locationsLink : Option SuggestionLink := none
deriving DecidableEq

/-- `_embedded` of the `/location-suggestions` response. -/
structure SuggestionsEmbedded where
  suggestions : Option (List Suggestion) := none
deriving DecidableEq

/-- Parsed `/location-suggestions` response body. -/
structure SuggestionsResponse where
  embedded : Option SuggestionsEmbedded := none
deriving DecidableEq

/-- Nested geographic data of a raw theatre object
(`location._embedded.theatre.location`). -/
structure TheatreLoc where
  addressLine1 : String
  city : String
  state : String
  postalCode : String
  country : String
deriving DecidableEq

/-- One entry of a raw theatre's `attributes` array. -/
structure TheatreAttr where
  name : String
deriving DecidableEq

/-- The raw theatre object nested in a coordinate-search result
(`location._embedded.theatre`). -/
structure RawTheatre where
  id : String
  name : String
  location : TheatreLoc
  guestServicesPhoneNumber : Option String := none
  attributes : List TheatreAttr := []
deriving DecidableEq

/-- One entry of `_embedded.locations` in the `/locations` response. -/
structure LocationEntry where
  theatre : RawTheatre
  distance : Option Rat := none
deriving DecidableEq

/-- `_embedded` of the `/locations` response. -/
structure LocationsEmbedded where
  locations : Option (List LocationEntry) := none
deriving DecidableEq

/-- Parsed `/locations` response body. -/
structure LocationsResponse where
  embedded : Option LocationsEmbedded := none
deriving DecidableEq

/-- Parsed body of the legacy `/theatres` ZIP-search response:
`response.data.theatres || response.data.data || []`. -/
structure LegacyTheatresResponse where
  theatres : Option (List AMCTheater) := none
  data : Option (List AMCTheater) := none
deriving DecidableEq

/-- The characters after the first occurrence of `c`, or `none` when `c` does
not occur. -/
def afterFirst (c : Char) : List Char → Option (List Char)
  | [] => none
  | a :: as => if a = c then some as else afterFirst c as

/-- Split a character list on every occurrence of `c`. -/
def splitOnChar (c : Char) : List Char → List (List Char)
  | [] => [[]]
  | a :: as =>
    let rest := splitOnChar c as
    if a = c then [] :: rest
    else
      match rest with
      | [] => [[a]]
      | r :: rs => (a :: r) :: rs

/-- Split a character list at the first occurrence of `c`: the part before
it, and (when `c` occurs) the part after it. -/
def splitFirst (c : Char) : List Char → List Char × Option (List Char)
  | [] => ([], none)
  | a :: as =>
    if a = c then ([], some as)
    else
      let rest := splitFirst c as
      (a :: rest.1, rest.2)

/-- The numeric value of a hexadecimal digit. -/
def hexVal (c : Char) : Option Nat :=
  if '0' ≤ c ∧ c ≤ '9' then some (c.toNat - '0'.toNat)
  else if 'a' ≤ c ∧ c ≤ 'f' then some (c.toNat - 'a'.toNat + 10)
  else if 'A' ≤ c ∧ c ≤ 'F' then some (c.toNat - 'A'.toNat + 10)
  else none

/-- `application/x-www-form-urlencoded` decoding as performed by
`URLSearchParams`: `+` becomes a space and `%XX` is decoded (bytewise; the
recombination of multi-byte UTF-8 sequences is not modelled — the values
consumed here are plain numeric coordinates). A malformed escape is kept
verbatim. -/
def percentDecode : List Char → List Char
  | [] => []
  | '%' :: a :: b :: rest =>
    match hexVal a, hexVal b with
    | some ha, some hb => Char.ofNat (16 * ha + hb) :: percentDecode rest
    | _, _ => '%' :: percentDecode (a :: b :: rest)
  | '+' :: rest => ' ' :: percentDecode rest
  | c :: rest => c :: percentDecode rest

/-- A character allowed in an URL scheme after its leading letter. -/
def isSchemeChar (c : Char) : Bool :=
  c.isAlphanum || c = '+' || c = '-' || c = '.'

/-- Whether the remaining characters reach a `:` through scheme characters. -/
def hasSchemeColon : List Char → Bool
  | [] => false
  | c :: rest => if c = ':' then true else (isSchemeChar c && hasSchemeColon rest)

/-- Whether `new URL(s)` succeeds: the WHATWG constructor requires an
absolute URL, i.e. a leading `scheme ':'` with the scheme starting in a
letter. (The further host requirements of special schemes are not modelled;
the hrefs consumed here are full API URLs.) On anything else the constructor
throws a `TypeError`. -/
def validUrl (s : String) : Bool :=
  match s.data with
  | [] => false
  | c :: rest => c.isAlpha && hasSchemeColon rest

/-- `url.searchParams.get(key)`: extract a query parameter value from an URL
string (`none` when the parameter is absent, `some ""` for an empty or
missing value of a present key). The query is the part after the first `?`
and before any `#`; keys and values are form-urlencoded-decoded. -/
def getQueryParam (href key : String) : Option String :=
  match afterFirst '?' href.data with
  | none => none
  | some tail =>
    let query := tail.takeWhile (fun c => c ≠ '#')
    ((splitOnChar '&' query).filterMap fun kv =>
      let kvSplit := splitFirst '=' kv
      if percentDecode kvSplit.1 = key.data then
        some (String.mk (percentDecode (kvSplit.2.getD [])))
      else none).head?

/-- The coordinate-extraction step (a) of `getTheatersByZip`, mirroring the
nested conditionals: suggestions embedded and non-empty, first suggestion has
the locations rel with a truthy `href`; then `new URL(href)` is constructed —
it THROWS on an invalid href (`.error`, rethrown by the surrounding catch) —
and both `latitude` and `longitude` query parameters must be truthy
(`.ok (some (lat, lon))`). Every missed conditional falls through to the
legacy fallback (`.ok none`). -/
def usableCoords (r : SuggestionsResponse) : Except String (Option (String × String)) :=
  match r.embedded with
  | none => .ok none
  | some emb =>
    match emb.suggestions with
    | none => .ok none
    | some suggs =>
      if suggs.length > 0 then
        match suggs.head? with
        | none => .ok none
        | some sugg =>
          match sugg.locationsLink with
          | none => .ok none
          | some link =>
            if link.href = "" then .ok none
            else if validUrl link.href then
              match getQueryParam link.href "latitude", getQueryParam link.href "longitude" with
              | some lat, some lon =>
                if lat ≠ "" ∧ lon ≠ "" then .ok (some (lat, lon)) else .ok none
              | some _, none => .ok none
              | none, _ => .ok none
            else .error "Invalid URL"
      else .ok none

/-- `theatersResponse.data && theatersResponse.data._embedded &&
theatersResponse.data._embedded.locations` (a present array is truthy even
when empty). -/
def locationsList (r : LocationsResponse) : Option (List LocationEntry) :=
  r.embedded.bind (fun emb => emb.locations)

/-- Reshaping of one coordinate-search result entry into the stable
`AMCTheater` entity, exactly as written in the `.map` of `getTheatersByZip`
and `getTheatersByCoordinates`. -/
def reshapeLocation (loc : LocationEntry) : AMCTheater :=
  { id := loc.theatre.id
    name := loc.theatre.name
    address :=
      { street := loc.theatre.location.addressLine1
        city := loc.theatre.location.city
        state := loc.theatre.location.state
        zipCode := loc.theatre.location.postalCode
        country := loc.theatre.location.country }
    phone := loc.theatre.guestServicesPhoneNumber
    amenities := loc.theatre.attributes.map (fun attr => attr.name)
    distance := loc.distance }

/-- One outbound vendor HTTP call of `getTheatersByZip`. -/
inductive AMCCall where
  | suggestions (zip : String)
  | locations (lat lon : String)
  | legacy (zip : String)
deriving DecidableEq

/-- Environment for one `getTheatersByZip` run: the outcome of each endpoint
the adapter may consult (`.error msg` = the awaited HTTP call rejects). -/
structure ZipEnv where
  suggestionsResp : Except String SuggestionsResponse
  locationsResp : Except String LocationsResponse
  legacyResp : Except String LegacyTheatresResponse

/-- The legacy `/theatres` fallback tail of `getTheatersByZip`. -/
def legacyStep (env : ZipEnv) (zip : String) (calls : List AMCCall) :
    Except String (List AMCTheater) × List AMCCall :=
  let calls2 := calls ++ [AMCCall.legacy zip]
  match env.legacyResp with
  | .error e => (.error e, calls2)
  | .ok resp => (.ok (jsOrListO resp.theatres (jsOrListO resp.data [])), calls2)

/-- `AMCClient.getTheatersByZip`: suggestion lookup, coordinate search when
the first suggestion yields usable coordinates, and the legacy `/theatres`
fallback otherwise — including when the coordinate search responds without an
`_embedded.locations` array (the inner `if` simply falls through). The second
component is the trace of vendor calls in issue order. -/
def getTheatersByZip (env : ZipEnv) (zip : String) :
    Except String (List AMCTheater) × List AMCCall :=
  let calls0 := [AMCCall.suggestions zip]
  match env.suggestionsResp with
  | .error e => (.error e, calls0)
  | .ok sresp =>
    match usableCoords sresp with
    | .error e => (.error e, calls0)
    | .ok (some (lat, lon)) =>
      let calls1 := calls0 ++ [AMCCall.locations lat lon]
      match env.locationsResp with
      | .error e => (.error e, calls1)
      | .ok lresp =>
        match locationsList lresp with
        | some locs => (.ok (locs.map reshapeLocation), calls1)
        | none => legacyStep env zip calls1
    | .ok none => legacyStep env zip calls0

/-- The structured error thrown by `MCPTools.createMCPError`: taxonomy code,
human message, and the original detail string. -/
structure MCPError where
  code : String
  message : String
  details : Option String := none
deriving DecidableEq

/-- The Zod pattern `^\d{5}(-\d{4})?$` of `ListTheatersSchema.zip`. -/
def zipValid (s : String) : Bool :=
  let cs := s.data
  (cs.length = 5 && cs.all Char.isDigit) ||
    (cs.length = 10 && (cs.take 5).all Char.isDigit && (cs.drop 5).head? = some '-' &&
      (cs.drop 6).all Char.isDigit)

/-- The Zod pattern `^\d{4}-\d{2}-\d{2}$` of `ListShowtimesSchema.date`. -/
def dateValid (s : String) : Bool :=
  let cs := s.data
  cs.length = 10 && (cs.take 4).all Char.isDigit && (cs.drop 4).head? = some '-' &&
    ((cs.drop 5).take 2).all Char.isDigit && (cs.drop 7).head? = some '-' &&
    ((cs.drop 8).take 2).all Char.isDigit

/-- Input of the `list_theaters` tool. -/
structure ListTheatersInput where
  zip : String
deriving DecidableEq

/-- Output of the `list_theaters` tool. The per-field copy in `listTheaters`
rebuilds the same shape, so the entity type is reused. -/
structure ListTheatersOutput where
  theaters : List AMCTheater
  totalCount : Nat
deriving DecidableEq

/-- The field-by-field copy `theaters.map(theater => ({id, name, address,
phone, amenities, distance}))` in `MCPTools.listTheaters`. -/
def projectTheater (t : AMCTheater) : AMCTheater :=
  { id := t.id
    name := t.name
    address := t.address
    phone := t.phone
    amenities := t.amenities
    distance := t.distance }

/-- A dependency call issued by `MCPTools.listTheaters`. -/
inductive TheaterToolCall where
  | getTheatersByZip (zip : String)
deriving DecidableEq

/-- Environment of one `listTheaters` run: the outcome of the adapter call
(the `.error` string is the detail derived in the `catch` block). -/
structure ListTheatersEnv where
  theatersByZip : Except String (List AMCTheater)

/-- `MCPTools.listTheaters`: Zod validation of the ZIP, then the adapter call,
wrapping adapter failures into `AMC_API_ERROR`. A validation failure throws
`VALIDATION_ERROR` before any adapter call is issued (empty trace). -/
def listTheaters (env : ListTheatersEnv) (input : ListTheatersInput) :
    Except MCPError ListTheatersOutput × List TheaterToolCall :=
  if zipValid input.zip then
    match env.theatersByZip with
    | .ok theaters =>
      (.ok { theaters := theaters.map projectTheater, totalCount := theaters.length },
        [TheaterToolCall.getTheatersByZip input.zip])
    | .error e =>
      (.error { code := "AMC_API_ERROR", message := "Failed to fetch theaters", details := some e },
        [TheaterToolCall.getTheatersByZip input.zip])
  else
    (.error { code := "VALIDATION_ERROR", message := "Invalid input parameters",
              details := some "Invalid ZIP code format" }, [])

/-- Input of the `reserve_tickets` tool. The Zod schema checks
`z.number().int().positive().max(10)`; the integrality check is carried by
the `Int` type of `quantity`. -/
structure ReserveTicketsInput where
  showtimeId : String
  quantity : Int
deriving DecidableEq

/-- Output of the `reserve_tickets` tool. -/
structure ReserveTicketsOutput where
  reservationId : String
  status : String
  message : String
deriving DecidableEq

/-- A dependency the tool layer could call: the vendor adapter or the
browser-automation driver. `reserveTickets` issues neither. -/
inductive ToolDependencyCall where
  | vendorApi
  | automation
deriving DecidableEq

/-- `ReserveTicketsSchema.parse` succeeds: non-empty showtime id, positive
quantity of at most 10. -/
def reserveValidate (input : ReserveTicketsInput) : Bool :=
  decide (input.showtimeId ≠ "") && decide (0 < input.quantity) && decide (input.quantity ≤ 10)

/-- The literal stub message of `MCPTools.reserveTickets`. -/
def reserveStubMessage : String :=
  "Ticket reservation is not yet implemented. This is a stub response for testing purposes."

/-- `MCPTools.reserveTickets`: validation only, then a synthetic pending
reservation built from the current timestamp (`Date.now()`, passed in as
`now`). The trace of dependency calls is empty on every path — the body
touches neither `amcClient` nor `playwrightService`. -/
def reserveTickets (input : ReserveTicketsInput) (now : Nat) :
    Except MCPError ReserveTicketsOutput × List ToolDependencyCall :=
  if reserveValidate input then
    (.ok { reservationId := "stub_" ++ toString now
           status := "pending"
           message := reserveStubMessage }, [])
  else
    (.error { code := "VALIDATION_ERROR", message := "Invalid input parameters",
              details := some "Invalid reserve_tickets input" }, [])

/-! ### `list_showtimes` -/

/-- One ticket-price entry of a raw vendor showtime. Monetary values are
modelled as naturals; only presence matters here. -/
structure TicketPrice where
  price : Nat
deriving DecidableEq

/-- A raw vendor showtime as consumed by `MCPTools.listShowtimes`
(`_embedded.showtimes` entries): the fields the mapping reads, plus the
optional seat-availability datum a vendor response may carry (spec §3:
"optional available-seat count"), which the mapping never consults. -/
structure RawShowtime where
  id : String
  movieId : String
  movieName : String
  showDateTimeUtc : String
  sellUntilDateTimeUtc : String
  auditorium : Nat
  premiumFormat : Option String := none
  ticketPrices : Option (List TicketPrice) := none
  availableSeats : Option Nat := none
deriving DecidableEq

/-- One element of the `list_showtimes` output. -/
structure Showtime where
  id : String
  movieId : String
  movieTitle : String
  startDateTime : String
  endDateTime : String
  auditorium : String
  format : Option String := none
  ticketPrice : Option Nat := none
  availableSeats : Option Nat := none
deriving DecidableEq

/-- The theater sub-object of the `list_showtimes` output (no distance). -/
structure TheaterSummary where
  id : String
  name : String
  address : TheaterAddress
  phone : Option String := none
  amenities : List String := []
deriving DecidableEq

/-- Output of the `list_showtimes` tool. -/
structure ListShowtimesOutput where
  showtimes : List Showtime
  totalCount : Nat
  theater : TheaterSummary
deriving DecidableEq

/-- Input of the `list_showtimes` tool. -/
structure ListShowtimesInput where
  theaterId : String
  date : String
deriving DecidableEq

/-- Environment of one `listShowtimes` run: outcomes of the two concurrent
adapter reads (`getShowtimes`, `getTheaterById`). -/
structure ListShowtimesEnv where
  showtimesResp : Except String (List RawShowtime)
  theaterResp : Except String AMCTheater

/-- The per-showtime reshaping of `MCPTools.listShowtimes`, including the
unconditional `availableSeats: undefined`. -/
def mapShowtime (st : RawShowtime) : Showtime :=
  { id := st.id
    movieId := st.movieId
    movieTitle := st.movieName
    startDateTime := st.showDateTimeUtc
    endDateTime := st.sellUntilDateTimeUtc
    auditorium := toString st.auditorium
    format := st.premiumFormat
    ticketPrice := (st.ticketPrices.bind List.head?).map (fun tp => tp.price)
    availableSeats := none }

/-- `MCPTools.listShowtimes`: Zod validation, `Promise.all` of the two
adapter reads (a rejection of either surfaces as `AMC_API_ERROR`), then
reshaping. -/
def listShowtimes (env : ListShowtimesEnv) (input : ListShowtimesInput) :
    Except MCPError ListShowtimesOutput :=
  if input.theaterId ≠ "" && dateValid input.date then
    match env.showtimesResp, env.theaterResp with
    | .ok showtimes, .ok theater =>
      .ok { showtimes := showtimes.map mapShowtime
            totalCount := showtimes.length
            theater :=
              { id := theater.id
                name := theater.name
                address := theater.address
                phone := theater.phone
                amenities := theater.amenities } }
    | .error e, _ =>
      .error { code := "AMC_API_ERROR", message := "Failed to fetch showtimes", details := some e }
    | _, .error e =>
      .error { code := "AMC_API_ERROR", message := "Failed to fetch showtimes", details := some e }
  else
    .error { code := "VALIDATION_ERROR", message := "Invalid input parameters",
             details := some "Invalid list_showtimes input" }

/-! ## Browser automation driver (`PlaywrightBookingService`,
src/playwrightBookingService.ts)

Each awaited browser action that can reject is an `Except String Unit` in the
environment. `handleLogin`, `selectSeats` and `completeBooking` catch their
own exceptions and return plain results; `bookTickets` wraps the remaining
steps in a catch-all and a `finally` that closes the page and context. -/

/-- Seat row preference of `BookTicketsInput.seatPreferences.row`. -/
inductive RowPref where
  | front
  | middle
  | back
deriving DecidableEq

/-- Seat position preference of `BookTicketsInput.seatPreferences.position`. -/
inductive PositionPref where
  | aisle
  | center
deriving DecidableEq

/-- The optional `seatPreferences` object of `BookTicketsInput`. -/
structure SeatPreferences where
  row : Option RowPref := none
  position : Option PositionPref := none
deriving DecidableEq

/-- `BookTicketsInput` (src/types.ts). -/
structure BookTicketsInput where
  email : String
  password : String
  theaterId : String
  showtimeId : String
  seatCount : Nat
  seatPreferences : Option SeatPreferences := none
deriving DecidableEq

/-- The best-effort booking-detail snapshot scraped from the confirmation
page (`extractBookingDetails` already catches its own errors, so its outcome
is a plain environment value). -/
structure BookingDetails where
  movieTitle : String
  theaterName : String
  showtime : String
  totalPrice : Nat
deriving DecidableEq

/-- `BookTicketsOutput` (src/types.ts). -/
structure BookTicketsOutput where
  success : Bool
  confirmationNumber : Option String := none
  errorMessage : Option String := none
  bookingDetails : Option BookingDetails := none
deriving DecidableEq

/-- The failure shape `{success: false, errorMessage}` every failing path of
`bookTickets` returns. -/
def mkFailure (msg : String) : BookTicketsOutput :=
  { success := false, confirmationNumber := none, errorMessage := some msg, bookingDetails := none }

/-- Environment of `handleLogin`: outcomes of the form wait, the fills, the
submit click, and whether a signed-in indicator element is present
afterwards. -/
structure LoginEnv where
  formAppears : Except String Unit
  fillOk : Except String Unit
  submitOk : Except String Unit
  loggedInIndicator : Bool

/-- `PlaywrightBookingService.handleLogin`: every internal failure is caught
and becomes `false`; success is decided by the presence of a signed-in
indicator element. The credential strings are typed into the page but do not
influence the modelled outcome. -/
def handleLogin (l : LoginEnv) (email password : String) : Bool :=
  match l.formAppears with
  | .error _ => false
  | .ok _ =>
    match l.fillOk with
    | .error _ => false
    | .ok _ =>
      match l.submitOk with
      | .error _ => false
      | .ok _ => l.loggedInIndicator

/-- Environment of `selectSeats`: the seat-map wait, the enumerated available
seat elements, the outcome of clicking the i-th of them, the
`data-seat-id` attribute of the i-th, and the `.seat.selected` count observed
at the verification step. -/
structure SeatEnv where
  mapLoads : Except String Unit
  available : List String
  click : Nat → Except String Unit
  seatId : Nat → Option String
  selectedCountAfter : Nat

/-- Result shape of `selectSeats`. -/
structure SeatResult where
  success : Bool
  errorMessage : Option String := none
deriving DecidableEq

/-- The seat-clicking `for` loop of `selectSeats`, starting at index `i` with
`remaining` iterations left. Returns the exception that aborted the loop (if
any) and the ids of the seats actually clicked, in click order. -/
def clickLoop (s : SeatEnv) (i : Nat) (remaining : Nat) : Option String × List String :=
  match remaining with
  | 0 => (none, [])
  | r + 1 =>
    if i < s.available.length then
      match s.click i with
      | .error e => (some e, [])
      | .ok _ =>
        let sid := jsOrStr (s.seatId i) ("seat-" ++ toString i)
        let rest := clickLoop s (i + 1) r
        (rest.1, sid :: rest.2)
    else
      clickLoop s (i + 1) r

/-- `PlaywrightBookingService.selectSeats`: wait for the seat map, enumerate
available seats, fail with the literal count-mismatch message when fewer are
available than requested (clicking nothing), otherwise click the first
`seatCount` seats in enumeration order and verify the selected count. The
`preferences` argument is accepted but never read (only logged). The second
component is the list of seat ids clicked. -/
def selectSeats (s : SeatEnv) (seatCount : Nat) (preferences : Option SeatPreferences) :
    SeatResult × List String :=
  match s.mapLoads with
  | .error e =>
    ({ success := false, errorMessage := some ("Seat selection failed: " ++ e) }, [])
  | .ok _ =>
    if s.available.length < seatCount then
      ({ success := false
         errorMessage := some ("Only " ++ toString s.available.length ++
           " seats available, requested " ++ toString seatCount) }, [])
    else
      let clicked := clickLoop s 0 seatCount
      match clicked.1 with
      | some e =>
        ({ success := false, errorMessage := some ("Seat selection failed: " ++ e) }, clicked.2)
      | none =>
        if s.selectedCountAfter = seatCount then
          ({ success := true, errorMessage := none }, clicked.2)
        else
          ({ success := false
             errorMessage := some ("Failed to select all requested seats. Selected: " ++
               toString s.selectedCountAfter ++ ", Requested: " ++ toString seatCount) },
            clicked.2)

/-- Environment of `completeBooking`: visibility and click outcomes of the
continue and confirm controls, the confirmation-page wait, the extracted
confirmation text (`extractConfirmationNumber` catches its own errors and
yields `string | null`), and the scraped details snapshot. -/
structure CheckoutEnv where
  continueVisible : Bool
  continueClick : Except String Unit
  confirmVisible : Bool
  confirmClick : Except String Unit
  waitConfirmation : Except String Unit
  confirmationText : Option String
  details : BookingDetails

/-- Result shape of `completeBooking`. -/
structure CompleteResult where
  success : Bool
  confirmationNumber : Option String := none
  errorMessage : Option String := none
  bookingDetails : Option BookingDetails := none
deriving DecidableEq

/-- `PlaywrightBookingService.completeBooking`: optional continue and confirm
clicks, wait for a confirmation indicator, then extract the confirmation
number; a truthy extraction yields success, anything else the literal
"completed but no confirmation number found" failure, and any exception the
caught "Booking completion failed" failure. -/
def completeBooking (c : CheckoutEnv) : CompleteResult :=
  match (if c.continueVisible then c.continueClick else Except.ok ()) with
  | .error e =>
    { success := false, errorMessage := some ("Booking completion failed: " ++ e) }
  | .ok _ =>
    match (if c.confirmVisible then c.confirmClick else Except.ok ()) with
    | .error e =>
      { success := false, errorMessage := some ("Booking completion failed: " ++ e) }
    | .ok _ =>
      match c.waitConfirmation with
      | .error e =>
        { success := false, errorMessage := some ("Booking completion failed: " ++ e) }
      | .ok _ =>
        if jsTruthyStr c.confirmationText then
          { success := true
            confirmationNumber := c.confirmationText
            errorMessage := none
            bookingDetails := some c.details }
        else
          { success := false
            errorMessage := some "Booking completed but no confirmation number found" }

/-- Trace of the observable side effects of one `bookTickets` call. -/
structure BTrace where
  contextOpened : Bool := false
  pageOpened : Bool := false
  clickedSeats : List String := []
  sessionStored : Option String := none
  pageClosed : Bool := false
  contextClosed : Bool := false
  browserClosed : Bool := false
deriving DecidableEq

/-- Environment of one `bookTickets` call: whether the shared browser is
already launched, and the outcome of every awaited step that can reject —
including the two cleanup closes of the `finally` block, which are awaited,
rejectable steps sitting outside the catch-all. -/
structure BookingEnv where
  browserAlready : Bool
  initBrowser : Except String Unit
  newContext : Except String Unit
  newPage : Except String Unit
  goHome : Except String Unit
  signInVisible : Bool
  signInClick : Except String Unit
  altSignInVisible : Bool
  altSignInClick : Except String Unit
  login : LoginEnv
  goShowtime : Except String Unit
  seats : SeatEnv
  checkout : CheckoutEnv
  pageClose : Except String Unit
  contextClose : Except String Unit

/-- `if (!this.browser) await this.initialize()`. -/
def initStep (env : BookingEnv) : Except String Unit :=
  if env.browserAlready then Except.ok () else env.initBrowser

/-- The sign-in-trigger step: click the sign-in control when visible, else
try the alternative selector, else proceed. -/
def signInStep (env : BookingEnv) : Except String Unit :=
  if env.signInVisible then env.signInClick
  else if env.altSignInVisible then env.altSignInClick
  else Except.ok ()

/-- `PlaywrightBookingService.buildShowtimeUrl`: the theater id is accepted
but unused by the URL scheme. -/
def buildShowtimeUrl (theaterId showtimeId : String) : String :=
  "https://www.amctheatres.com/showtimes/" ++ showtimeId ++ "/seats"

/-- The `try` body of `bookTickets`, before the catch-all and the `finally`:
either a returned output with the trace so far, or an uncaught exception with
the trace so far. -/
def bookTicketsBody (env : BookingEnv) (input : BookTicketsInput) :
    Except (String × BTrace) (BookTicketsOutput × BTrace) :=
  let t0 : BTrace := {}
  match initStep env with
  | .error e => .error (e, t0)
  | .ok _ =>
    match env.newContext with
    | .error e => .error (e, t0)
    | .ok _ =>
      let t1 : BTrace := { t0 with contextOpened := true }
      match env.newPage with
      | .error e => .error (e, t1)
      | .ok _ =>
        let t2 : BTrace := { t1 with pageOpened := true }
        match env.goHome with
        | .error e => .error (e, t2)
        | .ok _ =>
          match signInStep env with
          | .error e => .error (e, t2)
          | .ok _ =>
            if handleLogin env.login input.email input.password then
              let _url := buildShowtimeUrl input.theaterId input.showtimeId
              match env.goShowtime with
              | .error e => .error (e, t2)
              | .ok _ =>
                let seatSelection := selectSeats env.seats input.seatCount input.seatPreferences
                let t3 : BTrace := { t2 with clickedSeats := seatSelection.2 }
                if seatSelection.1.success then
                  let bookingResult := completeBooking env.checkout
                  if bookingResult.success then
                    .ok ({ success := true
                           confirmationNumber := bookingResult.confirmationNumber
                           errorMessage := none
                           bookingDetails := bookingResult.bookingDetails },
                         { t3 with sessionStored := some input.email })
                  else
                    .ok (mkFailure (jsOrStr bookingResult.errorMessage "Booking completion failed"), t3)
                else
                  .ok (mkFailure (jsOrStr seatSelection.1.errorMessage "Failed to select seats"), t3)
            else
              .ok (mkFailure "Login failed - please check your credentials", t2)

/-- `if (page) await page.close()` of the `finally` block: attempted only
when a page was opened; the awaited close may reject, in which case the page
is not marked closed and the rejection propagates. -/
def closePageStep (env : BookingEnv) (t : BTrace) : Except String Unit × BTrace :=
  if t.pageOpened then
    match env.pageClose with
    | .error e => (.error e, t)
    | .ok _ => (.ok (), { t with pageClosed := true })
  else (.ok (), t)

/-- `if (context) await context.close()` of the `finally` block. -/
def closeContextStep (env : BookingEnv) (t : BTrace) : Except String Unit × BTrace :=
  if t.contextOpened then
    match env.contextClose with
    | .error e => (.error e, t)
    | .ok _ => (.ok (), { t with contextClosed := true })
  else (.ok (), t)

/-- The `finally` block of `bookTickets`: `if (page) await page.close();
if (context) await context.close();`. A rejection of the page close skips the
context close (JavaScript abandons the rest of the block) and propagates. -/
def runFinally (env : BookingEnv) (t : BTrace) : Except String Unit × BTrace :=
  match closePageStep env t with
  | (.error e, t1) => (.error e, t1)
  | (.ok _, t1) => closeContextStep env t1

/-- `PlaywrightBookingService.bookTickets`: the `try` body, the catch-all
converting an unexpected exception of the body into the failure shape, and
the `finally` cleanup. The closes in the `finally` sit outside the
catch-all, so their rejection replaces the outcome and propagates out of the
call (`.error`); otherwise the body's (or the catch-all's) output is
returned. The second component is the effect trace on every path. -/
def bookTickets (env : BookingEnv) (input : BookTicketsInput) :
    Except String BookTicketsOutput × BTrace :=
  match bookTicketsBody env input with
  | .ok (out, t) =>
    match runFinally env t with
    | (.ok _, t2) => (.ok out, t2)
    | (.error e2, t2) => (.error e2, t2)
  | .error (e, t) =>
    match runFinally env t with
    | (.ok _, t2) => (.ok (mkFailure ("Booking automation failed: " ++ e)), t2)
    | (.error e2, t2) => (.error e2, t2)

/-- The trace component of a `bookTicketsBody` outcome. -/
def bodyTrace : Except (String × BTrace) (BookTicketsOutput × BTrace) → BTrace
  | .ok (_, t) => t
  | .error (_, t) => t

/-- Observable effects of `PlaywrightBookingService.cleanup` on the service
state, given whether the shared browser handle is currently non-null. -/
structure CleanupTrace where
  browserClosed : Bool
  browserOpenAfter : Bool
  sessionsCleared : Bool
deriving DecidableEq

/-- `PlaywrightBookingService.cleanup`: close the shared browser when it is
open, null the handle, clear the session map. -/
def cleanup (browserOpen : Bool) : CleanupTrace :=
  { browserClosed := browserOpen, browserOpenAfter := false, sessionsCleared := true }

/-! ## Helper lemmas -/

/-- Appending to a non-empty string yields a non-empty string. -/
theorem str_append_ne_empty (s t : String) (h : s ≠ "") : s ++ t ≠ "" := by
  intro hc
  apply h
  have hl := congrArg String.length hc
  rw [String.length_append] at hl
  have hz : ("" : String).length = 0 := by decide
  rw [hz] at hl
  have hs0 : s.length = 0 := by omega
  cases s with
  | mk d =>
    cases d with
    | nil => rfl
    | cons a as => simp [String.length] at hs0

/-- On every exit path of `completeBooking`, the success flag equals the
presence of an extracted confirmation number. -/
theorem completeBooking_success_iff (c : CheckoutEnv) :
    (completeBooking c).success = (completeBooking c).confirmationNumber.isSome := by
  unfold completeBooking
  split
  · rfl
  · split
    · rfl
    · split
      · rfl
      · split
        · rename_i h
          cases hct : c.confirmationText with
          | none => rw [hct] at h; simp [jsTruthyStr] at h
          | some s => simp [hct]
        · rfl

/-- Every outcome of the try body leaves the close flags and the browser
flag unset: closing happens only in the `finally`, and the body never
touches the shared browser handle. -/
theorem bookTicketsBody_flags (env : BookingEnv) (input : BookTicketsInput) :
    (bodyTrace (bookTicketsBody env input)).pageClosed = false ∧
    (bodyTrace (bookTicketsBody env input)).contextClosed = false ∧
    (bodyTrace (bookTicketsBody env input)).browserClosed = false := by
  unfold bookTicketsBody
  dsimp only
  repeat' split
  all_goals exact ⟨rfl, rfl, rfl⟩

/-- Every output the try body returns (directly or through one of its local
failure returns) has success iff a present confirmation number. -/
theorem bookTicketsBody_ok_success_iff (env : BookingEnv) (input : BookTicketsInput)
    (out : BookTicketsOutput) (t : BTrace)
    (h : bookTicketsBody env input = Except.ok (out, t)) :
    out.success = out.confirmationNumber.isSome := by
  unfold bookTicketsBody at h
  dsimp only at h
  repeat' split at h
  all_goals (try (simp only [reduceCtorEq] at h))
  all_goals simp only [Except.ok.injEq, Prod.mk.injEq] at h
  all_goals obtain ⟨ho, ht⟩ := h
  all_goals subst ho
  all_goals (first
    | rfl
    | (rw [← completeBooking_success_iff]; symm; assumption))

/-- Every output the try body returns is a success or carries an error
message. -/
theorem bookTicketsBody_ok_shape (env : BookingEnv) (input : BookTicketsInput)
    (out : BookTicketsOutput) (t : BTrace)
    (h : bookTicketsBody env input = Except.ok (out, t)) :
    out.success = true ∨ (out.errorMessage).isSome = true := by
  unfold bookTicketsBody at h
  dsimp only at h
  repeat' split at h
  all_goals (try (simp only [reduceCtorEq] at h))
  all_goals simp only [Except.ok.injEq, Prod.mk.injEq] at h
  all_goals obtain ⟨ho, ht⟩ := h
  all_goals subst ho
  all_goals (first | (left; rfl) | (right; rfl))

/-- When both closes succeed, the `finally` block does not throw. -/
theorem runFinally_fst_ok (env : BookingEnv) (t : BTrace)
    (hp : env.pageClose = Except.ok ()) (hc : env.contextClose = Except.ok ()) :
    (runFinally env t).1 = Except.ok () := by
  obtain ⟨co, po, cs, ss, pc, cc, bc⟩ := t
  cases po <;> cases co <;>
    simp [runFinally, closePageStep, closeContextStep, hp, hc]

/-- When both closes succeed, the `finally` block marks exactly the opened
resources closed and changes nothing else. -/
theorem runFinally_ok_trace (env : BookingEnv) (t : BTrace)
    (hp : env.pageClose = Except.ok ()) (hc : env.contextClose = Except.ok ())
    (h1 : t.pageClosed = false) (h2 : t.contextClosed = false) :
    runFinally env t =
      (Except.ok (), { t with pageClosed := t.pageOpened, contextClosed := t.contextOpened }) := by
  obtain ⟨co, po, cs, ss, pc, cc, bc⟩ := t
  simp only at h1 h2
  subst h1
  subst h2
  cases po <;> cases co <;>
    simp [runFinally, closePageStep, closeContextStep, hp, hc]

/-- The `finally` block never touches the clicked seats, the opened flags or
the browser flag. -/
theorem runFinally_preserves (env : BookingEnv) (t : BTrace) :
    (runFinally env t).2.clickedSeats = t.clickedSeats ∧
    (runFinally env t).2.pageOpened = t.pageOpened ∧
    (runFinally env t).2.contextOpened = t.contextOpened ∧
    (runFinally env t).2.browserClosed = t.browserClosed := by
  obtain ⟨co, po, cs, ss, pc, cc, bc⟩ := t
  cases po <;> cases co <;>
    cases hpc : env.pageClose <;> cases hcc : env.contextClose <;>
      simp [runFinally, closePageStep, closeContextStep, hpc, hcc]

/-- A `finally`-block rejection is the rejection of one of the two closes. -/
theorem runFinally_fst_error (env : BookingEnv) (t : BTrace) (e : String)
    (h : (runFinally env t).1 = Except.error e) :
    env.pageClose = Except.error e ∨ env.contextClose = Except.error e := by
  obtain ⟨co, po, cs, ss, pc, cc, bc⟩ := t
  cases po <;> cases co <;>
    cases hpc : env.pageClose <;> cases hcc : env.contextClose <;>
      simp_all [runFinally, closePageStep, closeContextStep]

/-- A rejecting page close on a run that opened the page aborts the
`finally` block before the context close, leaving the trace as the body left
it, and propagates the rejection. -/
theorem runFinally_pageClose_error (env : BookingEnv) (t : BTrace) (e : String)
    (hp : env.pageClose = Except.error e) (ho : t.pageOpened = true) :
    runFinally env t = (Except.error e, t) := by
  simp [runFinally, closePageStep, ho, hp]

/-! ## Claim C4: movie-list envelope normalization -/

/-- The claim's words for `getNowPlayingMovies`: check the known locations in
a fixed priority order and return the first NON-EMPTY match, defaulting to
the empty list. Stated with the source's priority order; on the
counterexample below every other order agrees, since only one location is
non-empty. -/
def firstNonEmptyMovies {α : Type} (r : MoviesResponse α) : List α :=
  match r.embedded.bind (fun emb => emb.movies) with
  | some (m :: ms) => m :: ms
  | _ =>
    match r.movies with
    | some (m :: ms) => m :: ms
    | _ =>
      match r.data with
      | some (m :: ms) => m :: ms
      | _ => []

/-- C4 counterexample: a response whose `movies` key holds a present but
empty array while `data` holds a non-empty list. The code returns the empty
`movies` array (a present array is truthy in JavaScript even when empty), not
the first non-empty match, which is under `data`. -/
theorem c4_counterexample :
    getNowPlayingMovies ({ embedded := none, movies := some [], data := some [7] } :
      MoviesResponse Nat) = [] ∧
    firstNonEmptyMovies ({ embedded := none, movies := some [], data := some [7] } :
      MoviesResponse Nat) = [7] := by
  constructor
  · rfl
  · rfl

/-- C4 (amended): `getNowPlayingMovies` returns the same normalized list
whichever single known location (`_embedded.movies`, `movies`, or `data`)
carries it, and in general equals the first PRESENT match in the fixed
priority order `_embedded.movies`, `movies`, `data` (even when that array is
empty), defaulting to the empty list — total, hence never throwing, on every
parseable response. -/
theorem c4_envelope_normalization {α : Type} (L : List α) (r : MoviesResponse α) :
    getNowPlayingMovies { embedded := some { movies := some L }, movies := none, data := none } = L ∧
    getNowPlayingMovies { embedded := none, movies := some L, data := none } = L ∧
    getNowPlayingMovies { embedded := none, movies := none, data := some L } = L ∧
    getNowPlayingMovies r = firstPresentMovies r := by
  refine ⟨rfl, rfl, rfl, ?_⟩
  rcases r with ⟨emb, mv, dt⟩
  rcases emb with _ | ⟨em⟩
  · cases mv <;> cases dt <;> rfl
  · cases em <;> cases mv <;> cases dt <;> rfl

/-! ## Claim C7: two-step ZIP resolution -/

/-- C6 counterexample: for the valid 5-digit ZIP `"90210"`, when the adapter
call fails (e.g. a network fault), `listTheaters` does not return a list — it
throws a structured `AMC_API_ERROR`. -/
theorem c6_counterexample :
    zipValid "90210" = true ∧
    (listTheaters { theatersByZip := .error "Network Error" } { zip := "90210" }).1 =
      .error { code := "AMC_API_ERROR", message := "Failed to fetch theaters",
               details := some "Network Error" } := by
  constructor
  · decide
  · rfl

/-- C6 (amended): for every ZIP accepted by the schema pattern, validation
passes and, whenever the adapter call returns a list, `listTheaters` returns
it (possibly empty) without throwing, having issued exactly the one adapter
call; an adapter failure surfaces as a structured `AMC_API_ERROR` instead.
For every malformed ZIP, `listTheaters` throws `VALIDATION_ERROR` before any
adapter call is attempted (empty call trace). -/
theorem c6_list_theaters (env : ListTheatersEnv) (z : String) :
    (zipValid z = true → ∀ ts, env.theatersByZip = .ok ts →
      listTheaters env { zip := z } =
        (.ok { theaters := ts.map projectTheater, totalCount := ts.length },
         [TheaterToolCall.getTheatersByZip z])) ∧
    (zipValid z = false →
      listTheaters env { zip := z } =
        (.error { code := "VALIDATION_ERROR", message := "Invalid input parameters",
                  details := some "Invalid ZIP code format" }, [])) := by
  constructor
  · intro hz ts hts
    simp only [listTheaters, hz, if_true, hts]
  · intro hz
    simp only [listTheaters, hz]
    rfl

/-- Witness for `c6_list_theaters`: an empty adapter result for `"90210"`
yields an empty list, and the malformed ZIP `"9021"` yields the validation
error with no adapter call. -/
theorem c6_list_theaters_witness :
    listTheaters { theatersByZip := .ok [] } { zip := "90210" } =
      (.ok { theaters := [], totalCount := 0 }, [TheaterToolCall.getTheatersByZip "90210"]) ∧
    listTheaters { theatersByZip := .ok [] } { zip := "9021" } =
      (.error { code := "VALIDATION_ERROR", message := "Invalid input parameters",
                details := some "Invalid ZIP code format" }, []) :=
  ⟨(c6_list_theaters { theatersByZip := .ok [] } "90210").1 (by decide) [] rfl,
   (c6_list_theaters { theatersByZip := .ok [] } "9021").2 (by decide)⟩

/-! ## Claim C5: `reserve_tickets` is a pure stub -/

/-- C5: `reserveTickets` issues no vendor-API or automation call on any path,
and whenever validation passes it returns the synthetic pending reservation:
a `stub_`-prefixed id built from the timestamp, status exactly `"pending"`,
and the explanatory stub message. -/
theorem c5_reserve_stub (input : ReserveTicketsInput) (now : Nat) :
    (reserveTickets input now).2 = [] ∧
    (reserveValidate input = true →
      (reserveTickets input now).1 =
        .ok { reservationId := "stub_" ++ toString now
              status := "pending"
              message := reserveStubMessage }) := by
  constructor
  · simp only [reserveTickets]
    split <;> rfl
  · intro h
    simp only [reserveTickets, h, if_true]

/-- Witness for `c5_reserve_stub` at a concrete valid input. -/
theorem c5_reserve_stub_witness :
    (reserveTickets { showtimeId := "456", quantity := 2 } 99).2 = [] ∧
    (reserveTickets { showtimeId := "456", quantity := 2 } 99).1 =
      .ok { reservationId := "stub_" ++ toString 99
            status := "pending"
            message := reserveStubMessage } :=
  ⟨(c5_reserve_stub { showtimeId := "456", quantity := 2 } 99).1,
   (c5_reserve_stub { showtimeId := "456", quantity := 2 } 99).2 (by decide)⟩

/-! ## Claim C10: `list_showtimes` never reports seat availability -/

/-- C10: on every successful `listShowtimes` run, every output showtime has
an absent `availableSeats` field, regardless of the seat-availability data
present in the vendor response. -/
theorem c10_available_seats_absent (env : ListShowtimesEnv) (input : ListShowtimesInput)
    (out : ListShowtimesOutput) (h : listShowtimes env input = .ok out) :
    out.showtimes.all (fun st => st.availableSeats.isNone) = true := by
  unfold listShowtimes at h
  split at h
  · rcases hs : env.showtimesResp with e | showtimes <;> rw [hs] at h
    · simp at h
    · rcases ht : env.theaterResp with e | theater <;> rw [ht] at h
      · simp at h
      · simp only [Except.ok.injEq] at h
        subst h
        simp [List.all_eq_true, mapShowtime]
  · simp at h

/-- A raw vendor showtime that does carry seat-availability data. -/
def c10Raw : RawShowtime :=
  { id := "135683165"
    movieId := "m77"
    movieName := "Dune Part Two"
    showDateTimeUtc := "2024-01-15T19:00:00Z"
    sellUntilDateTimeUtc := "2024-01-15T21:30:00Z"
    auditorium := 5
    premiumFormat := some "IMAX"
    ticketPrices := some [{ price := 15 }]
    availableSeats := some 45 }

/-- The theater record returned by the adapter in the C10 witness. -/
def c10Theater : AMCTheater :=
  { id := "amc-empire-25"
    name := "AMC Empire 25"
    address :=
      { street := "234 W 42nd St", city := "New York", state := "NY",
        zipCode := "10036", country := "USA" }
    phone := some "212-398-2597"
    amenities := ["IMAX"] }

/-- The C10 witness environment. -/
def c10Env : ListShowtimesEnv :=
  { showtimesResp := .ok [c10Raw]
    theaterResp := .ok c10Theater }

/-- The output `listShowtimes` produces on the C10 witness environment. -/
def c10Out : ListShowtimesOutput :=
  { showtimes := [mapShowtime c10Raw]
    totalCount := 1
    theater :=
      { id := c10Theater.id
        name := c10Theater.name
        address := c10Theater.address
        phone := c10Theater.phone
        amenities := c10Theater.amenities } }

/-- Witness for `c10_available_seats_absent`: even though the vendor showtime
carries `availableSeats = some 45`, the output's field is absent. -/
theorem c10_available_seats_absent_witness :
    c10Out.showtimes.all (fun st => st.availableSeats.isNone) = true :=
  c10_available_seats_absent c10Env { theaterId := "amc-empire-25", date := "2024-01-15" }
    c10Out rfl

/-! ## Claim C1: success if and only if a confirmation number is present -/

/-- C1: every BookingResult returned by `bookTickets` — the claim's subject;
a run whose awaited cleanup close rejects propagates that rejection and
returns no BookingResult — has its success flag equal to the presence of the
confirmation number: every `success = true` result carries a confirmation
number, and every result without one (including a run that reaches the
confirmation page but extracts no confirmation number) has
`success = false`. -/
theorem c1_success_iff_confirmation (env : BookingEnv) (input : BookTicketsInput)
    (out : BookTicketsOutput) (h : (bookTickets env input).1 = Except.ok out) :
    out.success = out.confirmationNumber.isSome := by
  unfold bookTickets at h
  cases hbody : bookTicketsBody env input with
  | error p =>
    obtain ⟨e, t⟩ := p
    rw [hbody] at h
    dsimp only at h
    rcases hrf : runFinally env t with ⟨r, t2⟩
    rw [hrf] at h
    cases r with
    | error e2 => simp at h
    | ok u =>
      dsimp only at h
      simp only [Except.ok.injEq] at h
      subst h
      rfl
  | ok p =>
    obtain ⟨bo, t⟩ := p
    rw [hbody] at h
    dsimp only at h
    rcases hrf : runFinally env t with ⟨r, t2⟩
    rw [hrf] at h
    cases r with
    | error e2 => simp at h
    | ok u =>
      dsimp only at h
      simp only [Except.ok.injEq] at h
      subst h
      exact bookTicketsBody_ok_success_iff env input bo t hbody

/-- C1 witness environment: a fully successful run. -/
def c1Env : BookingEnv :=
  { browserAlready := true
    initBrowser := .ok ()
    newContext := .ok ()
    newPage := .ok ()
    goHome := .ok ()
    signInVisible := true
    signInClick := .ok ()
    altSignInVisible := false
    altSignInClick := .ok ()
    login := { formAppears := .ok (), fillOk := .ok (), submitOk := .ok (), loggedInIndicator := true }
    goShowtime := .ok ()
    seats :=
      { mapLoads := .ok ()
        available := ["A1", "A2"]
        click := fun _ => .ok ()
        seatId := fun _ => none
        selectedCountAfter := 2 }
    checkout :=
      { continueVisible := true
        continueClick := .ok ()
        confirmVisible := true
        confirmClick := .ok ()
        waitConfirmation := .ok ()
        confirmationText := some "CONF-1234"
        details := { movieTitle := "Dune", theaterName := "AMC", showtime := "7pm", totalPrice := 30 } }
    pageClose := .ok ()
    contextClose := .ok () }

/-- C1 witness input. -/
def c1Input : BookTicketsInput :=
  { email := "user@example.com"
    password := "hunter2"
    theaterId := "amc-century-city-15"
    showtimeId := "135683165"
    seatCount := 2
    seatPreferences := none }

/-- The BookingResult the C1 witness run returns. -/
def c1Out : BookTicketsOutput :=
  { success := true
    confirmationNumber := some "CONF-1234"
    errorMessage := none
    bookingDetails := some { movieTitle := "Dune", theaterName := "AMC", showtime := "7pm", totalPrice := 30 } }

/-- Witness for `c1_success_iff_confirmation` at a concrete successful run. -/
theorem c1_success_iff_confirmation_witness :
    c1Out.success = c1Out.confirmationNumber.isSome :=
  c1_success_iff_confirmation c1Env c1Input c1Out rfl

/-! ## Claim C2: fault containment of `bookTickets` -/

/-- C2 counterexample environment: every step up to the login succeeds, the
login fails (an internal step failure), and the awaited `page.close()` of the
`finally` block rejects. -/
def c2CexEnv : BookingEnv :=
  { browserAlready := true
    initBrowser := .ok ()
    newContext := .ok ()
    newPage := .ok ()
    goHome := .ok ()
    signInVisible := true
    signInClick := .ok ()
    altSignInVisible := false
    altSignInClick := .ok ()
    login := { formAppears := .ok (), fillOk := .ok (), submitOk := .ok (), loggedInIndicator := false }
    goShowtime := .ok ()
    seats :=
      { mapLoads := .ok ()
        available := []
        click := fun _ => .ok ()
        seatId := fun _ => none
        selectedCountAfter := 0 }
    checkout :=
      { continueVisible := false
        continueClick := .ok ()
        confirmVisible := false
        confirmClick := .ok ()
        waitConfirmation := .ok ()
        confirmationText := none
        details := { movieTitle := "", theaterName := "", showtime := "", totalPrice := 0 } }
    pageClose := .error "Target closed"
    contextClose := .ok () }

/-- C2 counterexample input. -/
def c2CexInput : BookTicketsInput :=
  { email := "user@example.com"
    password := "hunter2"
    theaterId := "amc-century-city-15"
    showtimeId := "135683165"
    seatCount := 1
    seatPreferences := none }

/-- C2 counterexample: an internal step (the login) fails, yet the call does
not return a `{success: false, errorMessage}` value — the awaited
`page.close()` in the `finally` block, which sits outside the catch-all,
rejects, and the rejection propagates out of `bookTickets`. -/
theorem c2_counterexample :
    handleLogin c2CexEnv.login c2CexInput.email c2CexInput.password = false ∧
    (bookTickets c2CexEnv c2CexInput).1 = Except.error "Target closed" :=
  ⟨rfl, rfl⟩

/-- C2 (amended): every failure of an internal step of the try body (login,
navigation, seat selection, checkout, or an unexpected exception there) is
caught and surfaces as a returned `{success: false, errorMessage}` value —
every returned result is a success or carries an error message; the call
propagates a fault only when one of the awaited cleanup closes of the
`finally` block, which sit outside the catch-all, rejects, and then the
propagated fault is that close rejection; when both closes succeed the call
never throws. -/
theorem c2_fault_containment (env : BookingEnv) (input : BookTicketsInput) :
    (∀ out, (bookTickets env input).1 = Except.ok out →
      out.success = true ∨ (out.errorMessage).isSome = true) ∧
    (∀ e, (bookTickets env input).1 = Except.error e →
      env.pageClose = Except.error e ∨ env.contextClose = Except.error e) ∧
    (env.pageClose = Except.ok () → env.contextClose = Except.ok () →
      ∀ e, (bookTickets env input).1 ≠ Except.error e) := by
  refine ⟨?_, ?_, ?_⟩
  · intro out h
    unfold bookTickets at h
    cases hbody : bookTicketsBody env input with
    | error p =>
      obtain ⟨e, t⟩ := p
      rw [hbody] at h
      dsimp only at h
      rcases hrf : runFinally env t with ⟨r, t2⟩
      rw [hrf] at h
      cases r with
      | error e2 => simp at h
      | ok u =>
        dsimp only at h
        simp only [Except.ok.injEq] at h
        subst h
        right
        rfl
    | ok p =>
      obtain ⟨bo, t⟩ := p
      rw [hbody] at h
      dsimp only at h
      rcases hrf : runFinally env t with ⟨r, t2⟩
      rw [hrf] at h
      cases r with
      | error e2 => simp at h
      | ok u =>
        dsimp only at h
        simp only [Except.ok.injEq] at h
        subst h
        exact bookTicketsBody_ok_shape env input bo t hbody
  · intro e h
    unfold bookTickets at h
    cases hbody : bookTicketsBody env input with
    | error p =>
      obtain ⟨e1, t⟩ := p
      rw [hbody] at h
      dsimp only at h
      rcases hrf : runFinally env t with ⟨r, t2⟩
      rw [hrf] at h
      cases r with
      | ok u => simp at h
      | error e2 =>
        dsimp only at h
        simp only [Except.error.injEq] at h
        subst h
        exact runFinally_fst_error env t e2 (by rw [hrf])
    | ok p =>
      obtain ⟨bo, t⟩ := p
      rw [hbody] at h
      dsimp only at h
      rcases hrf : runFinally env t with ⟨r, t2⟩
      rw [hrf] at h
      cases r with
      | ok u => simp at h
      | error e2 =>
        dsimp only at h
        simp only [Except.error.injEq] at h
        subst h
        exact runFinally_fst_error env t e2 (by rw [hrf])
  · intro hp hc e h
    unfold bookTickets at h
    cases hbody : bookTicketsBody env input with
    | error p =>
      obtain ⟨e1, t⟩ := p
      rw [hbody] at h
      dsimp only at h
      rcases hrf : runFinally env t with ⟨r, t2⟩
      have hok := runFinally_fst_ok env t hp hc
      rw [hrf] at hok h
      dsimp only at hok
      subst hok
      simp at h
    | ok p =>
      obtain ⟨bo, t⟩ := p
      rw [hbody] at h
      dsimp only at h
      rcases hrf : runFinally env t with ⟨r, t2⟩
      have hok := runFinally_fst_ok env t hp hc
      rw [hrf] at hok h
      dsimp only at hok
      subst hok
      simp at h

/-- C2 witness environment: a fully successful run whose closes succeed. -/
def c2WitEnv : BookingEnv :=
  { browserAlready := true
    initBrowser := .ok ()
    newContext := .ok ()
    newPage := .ok ()
    goHome := .ok ()
    signInVisible := true
    signInClick := .ok ()
    altSignInVisible := false
    altSignInClick := .ok ()
    login := { formAppears := .ok (), fillOk := .ok (), submitOk := .ok (), loggedInIndicator := true }
    goShowtime := .ok ()
    seats :=
      { mapLoads := .ok ()
        available := ["B1"]
        click := fun _ => .ok ()
        seatId := fun _ => none
        selectedCountAfter := 1 }
    checkout :=
      { continueVisible := true
        continueClick := .ok ()
        confirmVisible := true
        confirmClick := .ok ()
        waitConfirmation := .ok ()
        confirmationText := some "C2-OK"
        details := { movieTitle := "Dune", theaterName := "AMC", showtime := "9pm", totalPrice := 15 } }
    pageClose := .ok ()
    contextClose := .ok () }

/-- C2 witness input. -/
def c2WitInput : BookTicketsInput :=
  { email := "user@example.com"
    password := "hunter2"
    theaterId := "amc-century-city-15"
    showtimeId := "135683165"
    seatCount := 1
    seatPreferences := none }

/-- The result of the C2 witness run. -/
def c2WitOut : BookTicketsOutput :=
  { success := true
    confirmationNumber := some "C2-OK"
    errorMessage := none
    bookingDetails := some { movieTitle := "Dune", theaterName := "AMC", showtime := "9pm", totalPrice := 15 } }

/-- Witness for `c2_fault_containment`: the returned-result shape and the
no-throw conclusion at a run with succeeding closes, and the throw-source
conclusion at the rejecting-close run. -/
theorem c2_fault_containment_witness :
    (c2WitOut.success = true ∨ (c2WitOut.errorMessage).isSome = true) ∧
    (c2CexEnv.pageClose = Except.error "Target closed" ∨
      c2CexEnv.contextClose = Except.error "Target closed") ∧
    (bookTickets c2WitEnv c2WitInput).1 ≠ Except.error "boom" :=
  ⟨(c2_fault_containment c2WitEnv c2WitInput).1 c2WitOut rfl,
   (c2_fault_containment c2CexEnv c2CexInput).2.1 "Target closed" rfl,
   (c2_fault_containment c2WitEnv c2WitInput).2.2 rfl rfl "boom"⟩

/-! ## Claim C3: insufficient seats fail fast with the literal message -/

/-- C3: on every `bookTickets` run that reaches seat enumeration (each
earlier step succeeded and login passed) with strictly fewer available seats
than requested, and whose cleanup closes succeed, the returned result is the
failure whose error message is exactly the template
`Only {available} seats available, requested {requested}` with the literal
counts substituted (so `success = false`), and no seat element is clicked. -/
theorem c3_insufficient_seats (env : BookingEnv) (input : BookTicketsInput)
    (h1 : initStep env = Except.ok ())
    (h2 : env.newContext = Except.ok ())
    (h3 : env.newPage = Except.ok ())
    (h4 : env.goHome = Except.ok ())
    (h5 : signInStep env = Except.ok ())
    (h6 : handleLogin env.login input.email input.password = true)
    (h7 : env.goShowtime = Except.ok ())
    (h8 : env.seats.mapLoads = Except.ok ())
    (h9 : env.seats.available.length < input.seatCount)
    (h10 : env.pageClose = Except.ok ())
    (h11 : env.contextClose = Except.ok ()) :
    (bookTickets env input).1 =
      Except.ok (mkFailure ("Only " ++ toString env.seats.available.length ++
        " seats available, requested " ++ toString input.seatCount)) ∧
    (bookTickets env input).2.clickedSeats = [] := by
  have hne : ("Only " ++ toString env.seats.available.length ++
      " seats available, requested " ++ toString input.seatCount) ≠ "" :=
    str_append_ne_empty _ _ (str_append_ne_empty _ _
      (str_append_ne_empty "Only " _ (by decide)))
  have hsel : selectSeats env.seats input.seatCount input.seatPreferences =
      ({ success := false
         errorMessage := some ("Only " ++ toString env.seats.available.length ++
           " seats available, requested " ++ toString input.seatCount) }, []) := by
    unfold selectSeats
    rw [h8]
    rw [if_pos h9]
  unfold bookTickets bookTicketsBody
  simp only [h1, h2, h3, h4, h5, h6, h7, hsel, if_true]
  simp only [jsOrStr, if_neg hne]
  simp only [Bool.false_eq_true, if_false]
  rw [runFinally_ok_trace env _ h10 h11 rfl rfl]
  exact ⟨rfl, rfl⟩

/-- Login environment of the C3 witness: the login succeeds. -/
def c3Login : LoginEnv :=
  { formAppears := .ok (), fillOk := .ok (), submitOk := .ok (), loggedInIndicator := true }

/-- Seat environment of the C3 witness: exactly one available seat. -/
def c3Seats : SeatEnv :=
  { mapLoads := .ok ()
    available := ["A1"]
    click := fun _ => .ok ()
    seatId := fun _ => none
    selectedCountAfter := 0 }

/-- Checkout environment of the C3 witness (never reached). -/
def c3Checkout : CheckoutEnv :=
  { continueVisible := false
    continueClick := .ok ()
    confirmVisible := false
    confirmClick := .ok ()
    waitConfirmation := .ok ()
    confirmationText := none
    details := { movieTitle := "", theaterName := "", showtime := "", totalPrice := 0 } }

/-- C3 witness environment: every step up to seat enumeration succeeds, and
so do the cleanup closes. -/
def c3Env : BookingEnv :=
  { browserAlready := true
    initBrowser := .ok ()
    newContext := .ok ()
    newPage := .ok ()
    goHome := .ok ()
    signInVisible := true
    signInClick := .ok ()
    altSignInVisible := false
    altSignInClick := .ok ()
    login := c3Login
    goShowtime := .ok ()
    seats := c3Seats
    checkout := c3Checkout
    pageClose := .ok ()
    contextClose := .ok () }

/-- C3 witness input: two seats requested. -/
def c3Input : BookTicketsInput :=
  { email := "user@example.com"
    password := "hunter2"
    theaterId := "amc-century-city-15"
    showtimeId := "135683165"
    seatCount := 2
    seatPreferences := none }

/-- Witness for `c3_insufficient_seats`: requesting 2 seats with exactly 1
available yields the literal message and no clicks. -/
theorem c3_insufficient_seats_witness :
    (bookTickets c3Env c3Input).1 =
      Except.ok (mkFailure ("Only " ++ toString c3Env.seats.available.length ++
        " seats available, requested " ++ toString c3Input.seatCount)) ∧
    (bookTickets c3Env c3Input).2.clickedSeats = [] :=
  c3_insufficient_seats c3Env c3Input rfl rfl rfl rfl rfl rfl rfl rfl (by decide) rfl rfl

/-! ## Claim C8: cleanup of page and context on every exit path -/

/-- C8 counterexample environment: the run opens its context and page, the
login fails, and the awaited `page.close()` of the `finally` block rejects. -/
def c8CexEnv : BookingEnv :=
  { browserAlready := true
    initBrowser := .ok ()
    newContext := .ok ()
    newPage := .ok ()
    goHome := .ok ()
    signInVisible := true
    signInClick := .ok ()
    altSignInVisible := false
    altSignInClick := .ok ()
    login := { formAppears := .ok (), fillOk := .ok (), submitOk := .ok (), loggedInIndicator := false }
    goShowtime := .ok ()
    seats :=
      { mapLoads := .ok ()
        available := []
        click := fun _ => .ok ()
        seatId := fun _ => none
        selectedCountAfter := 0 }
    checkout :=
      { continueVisible := false
        continueClick := .ok ()
        confirmVisible := false
        confirmClick := .ok ()
        waitConfirmation := .ok ()
        confirmationText := none
        details := { movieTitle := "", theaterName := "", showtime := "", totalPrice := 0 } }
    pageClose := .error "Target closed"
    contextClose := .ok () }

/-- C8 counterexample input. -/
def c8CexInput : BookTicketsInput :=
  { email := "user@example.com"
    password := "hunter2"
    theaterId := "amc-century-city-15"
    showtimeId := "135683165"
    seatCount := 1
    seatPreferences := none }

/-- C8 counterexample: on the exit path where the awaited `page.close()`
rejects, the opened context is NOT closed before the call returns — the
rejection aborts the `finally` block before `context.close()` and propagates
— so page and context are not both closed on every exit path. -/
theorem c8_counterexample :
    (bookTickets c8CexEnv c8CexInput).2.contextOpened = true ∧
    (bookTickets c8CexEnv c8CexInput).2.contextClosed = false ∧
    (bookTickets c8CexEnv c8CexInput).1 = Except.error "Target closed" :=
  ⟨rfl, rfl, rfl⟩

/-- C8 (amended): on every exit path of the booking call (returned success,
returned failure, or an exception caught by the catch-all), the `finally`
block attempts the closes, and whenever both awaited closes succeed the page
is closed exactly when it was opened and the context exactly when it was
opened; a rejection of the page close on a run that opened the page skips
the context close (which stays unclosed) and propagates out of the call.
`bookTickets` never closes the shared browser, which only the explicit
`cleanup` operation closes (when open), leaving it null afterwards. -/
theorem c8_resource_cleanup (env : BookingEnv) (input : BookTicketsInput) (b : Bool) :
    (env.pageClose = Except.ok () → env.contextClose = Except.ok () →
      ((bookTickets env input).2.pageClosed = (bookTickets env input).2.pageOpened ∧
       (bookTickets env input).2.contextClosed = (bookTickets env input).2.contextOpened)) ∧
    (∀ e, env.pageClose = Except.error e → (bookTickets env input).2.pageOpened = true →
      ((bookTickets env input).1 = Except.error e ∧
       (bookTickets env input).2.contextClosed = false)) ∧
    ((bookTickets env input).2.browserClosed = false) ∧
    (cleanup b).browserClosed = b ∧ (cleanup b).browserOpenAfter = false := by
  have hfl := bookTicketsBody_flags env input
  refine ⟨?_, ?_, ?_, rfl, rfl⟩
  · intro hp hc
    unfold bookTickets
    cases hbody : bookTicketsBody env input with
    | error p =>
      obtain ⟨e1, t⟩ := p
      rw [hbody] at hfl
      simp only [bodyTrace] at hfl
      dsimp only
      rw [runFinally_ok_trace env t hp hc hfl.1 hfl.2.1]
      exact ⟨rfl, rfl⟩
    | ok p =>
      obtain ⟨bo, t⟩ := p
      rw [hbody] at hfl
      simp only [bodyTrace] at hfl
      dsimp only
      rw [runFinally_ok_trace env t hp hc hfl.1 hfl.2.1]
      exact ⟨rfl, rfl⟩
  · intro e hp ho
    unfold bookTickets at ho ⊢
    cases hbody : bookTicketsBody env input with
    | error p =>
      obtain ⟨e1, t⟩ := p
      rw [hbody] at hfl ho
      simp only [bodyTrace] at hfl
      dsimp only at ho ⊢
      rcases hrf : runFinally env t with ⟨r, t2⟩
      have hpres := runFinally_preserves env t
      rw [hrf] at hpres ho
      cases r with
      | ok u =>
        dsimp only at ho ⊢
        have hto : t.pageOpened = true := by rw [← hpres.2.1]; exact ho
        have hrfe := runFinally_pageClose_error env t e hp hto
        rw [hrfe] at hrf
        simp only [Prod.mk.injEq] at hrf
        exact absurd hrf.1 (by simp)
      | error e2 =>
        dsimp only at ho ⊢
        have hto : t.pageOpened = true := by rw [← hpres.2.1]; exact ho
        have hrfe := runFinally_pageClose_error env t e hp hto
        rw [hrfe] at hrf
        simp only [Prod.mk.injEq, Except.error.injEq] at hrf
        obtain ⟨he2, ht2⟩ := hrf
        subst he2
        subst ht2
        exact ⟨rfl, hfl.2.1⟩
    | ok p =>
      obtain ⟨bo, t⟩ := p
      rw [hbody] at hfl ho
      simp only [bodyTrace] at hfl
      dsimp only at ho ⊢
      rcases hrf : runFinally env t with ⟨r, t2⟩
      have hpres := runFinally_preserves env t
      rw [hrf] at hpres ho
      cases r with
      | ok u =>
        dsimp only at ho ⊢
        have hto : t.pageOpened = true := by rw [← hpres.2.1]; exact ho
        have hrfe := runFinally_pageClose_error env t e hp hto
        rw [hrfe] at hrf
        simp only [Prod.mk.injEq] at hrf
        exact absurd hrf.1 (by simp)
      | error e2 =>
        dsimp only at ho ⊢
        have hto : t.pageOpened = true := by rw [← hpres.2.1]; exact ho
        have hrfe := runFinally_pageClose_error env t e hp hto
        rw [hrfe] at hrf
        simp only [Prod.mk.injEq, Except.error.injEq] at hrf
        obtain ⟨he2, ht2⟩ := hrf
        subst he2
        subst ht2
        exact ⟨rfl, hfl.2.1⟩
  · unfold bookTickets
    cases hbody : bookTicketsBody env input with
    | error p =>
      obtain ⟨e1, t⟩ := p
      rw [hbody] at hfl
      simp only [bodyTrace] at hfl
      dsimp only
      rcases hrf : runFinally env t with ⟨r, t2⟩
      have hpres := runFinally_preserves env t
      rw [hrf] at hpres
      cases r with
      | ok u =>
        dsimp only
        rw [hpres.2.2.2]
        exact hfl.2.2
      | error e2 =>
        dsimp only
        rw [hpres.2.2.2]
        exact hfl.2.2
    | ok p =>
      obtain ⟨bo, t⟩ := p
      rw [hbody] at hfl
      simp only [bodyTrace] at hfl
      dsimp only
      rcases hrf : runFinally env t with ⟨r, t2⟩
      have hpres := runFinally_preserves env t
      rw [hrf] at hpres
      cases r with
      | ok u =>
        dsimp only
        rw [hpres.2.2.2]
        exact hfl.2.2
      | error e2 =>
        dsimp only
        rw [hpres.2.2.2]
        exact hfl.2.2

/-- C8 witness environment: a run whose closes succeed. -/
def c8WitEnv : BookingEnv :=
  { browserAlready := true
    initBrowser := .ok ()
    newContext := .ok ()
    newPage := .ok ()
    goHome := .ok ()
    signInVisible := true
    signInClick := .ok ()
    altSignInVisible := false
    altSignInClick := .ok ()
    login := { formAppears := .ok (), fillOk := .ok (), submitOk := .ok (), loggedInIndicator := true }
    goShowtime := .ok ()
    seats :=
      { mapLoads := .ok ()
        available := ["C1"]
        click := fun _ => .ok ()
        seatId := fun _ => none
        selectedCountAfter := 1 }
    checkout :=
      { continueVisible := false
        continueClick := .ok ()
        confirmVisible := false
        confirmClick := .ok ()
        waitConfirmation := .ok ()
        confirmationText := some "C8-OK"
        details := { movieTitle := "", theaterName := "", showtime := "", totalPrice := 0 } }
    pageClose := .ok ()
    contextClose := .ok () }

/-- C8 witness input. -/
def c8WitInput : BookTicketsInput :=
  { email := "user@example.com"
    password := "hunter2"
    theaterId := "amc-century-city-15"
    showtimeId := "135683165"
    seatCount := 1
    seatPreferences := none }

/-- Witness for `c8_resource_cleanup`: both closed flags match the opened
flags on a run with succeeding closes, and the page-close rejection skips
the context close on the rejecting run. -/
theorem c8_resource_cleanup_witness :
    ((bookTickets c8WitEnv c8WitInput).2.pageClosed = (bookTickets c8WitEnv c8WitInput).2.pageOpened ∧
     (bookTickets c8WitEnv c8WitInput).2.contextClosed = (bookTickets c8WitEnv c8WitInput).2.contextOpened) ∧
    ((bookTickets c8CexEnv c8CexInput).1 = Except.error "Target closed" ∧
     (bookTickets c8CexEnv c8CexInput).2.contextClosed = false) :=
  ⟨(c8_resource_cleanup c8WitEnv c8WitInput true).1 rfl rfl,
   (c8_resource_cleanup c8CexEnv c8CexInput true).2.1 "Target closed" rfl rfl⟩

/-! ## Claim C9: seat preferences never influence the run -/

/-- C9: two `bookTickets` inputs that differ only in the optional
`seatPreferences` field produce identical results and identical effect
traces — in particular the same seats are clicked — over every environment:
the preference input is accepted but never read by the seat-selection step. -/
theorem c9_seat_preferences_noninterference (env : BookingEnv) (i1 i2 : BookTicketsInput)
    (he : i1.email = i2.email) (hp : i1.password = i2.password)
    (ht : i1.theaterId = i2.theaterId) (hs : i1.showtimeId = i2.showtimeId)
    (hc : i1.seatCount = i2.seatCount) :
    bookTickets env i1 = bookTickets env i2 := by
  obtain ⟨e1, p1, t1, s1, c1, pr1⟩ := i1
  obtain ⟨e2, p2, t2, s2, c2, pr2⟩ := i2
  simp only at he hp ht hs hc
  subst he; subst hp; subst ht; subst hs; subst hc
  rfl

/-- Booking environment of the C9 witness. -/
def c9Env : BookingEnv :=
  { browserAlready := true
    initBrowser := .ok ()
    newContext := .ok ()
    newPage := .ok ()
    goHome := .ok ()
    signInVisible := true
    signInClick := .ok ()
    altSignInVisible := false
    altSignInClick := .ok ()
    login := { formAppears := .ok (), fillOk := .ok (), submitOk := .ok (), loggedInIndicator := true }
    goShowtime := .ok ()
    seats :=
      { mapLoads := .ok ()
        available := ["A1", "A2", "A3"]
        click := fun _ => .ok ()
        seatId := fun _ => none
        selectedCountAfter := 2 }
    checkout :=
      { continueVisible := true
        continueClick := .ok ()
        confirmVisible := true
        confirmClick := .ok ()
        waitConfirmation := .ok ()
        confirmationText := some "CONF-1234"
        details := { movieTitle := "Dune", theaterName := "AMC", showtime := "7pm", totalPrice := 30 } }
    pageClose := .ok ()
    contextClose := .ok () }

/-- C9 witness input with row/position preferences set. -/
def c9InputA : BookTicketsInput :=
  { email := "user@example.com"
    password := "hunter2"
    theaterId := "amc-century-city-15"
    showtimeId := "135683165"
    seatCount := 2
    seatPreferences := some { row := some RowPref.front, position := some PositionPref.aisle } }

/-- C9 witness input identical except for the preferences. -/
def c9InputB : BookTicketsInput :=
  { email := "user@example.com"
    password := "hunter2"
    theaterId := "amc-century-city-15"
    showtimeId := "135683165"
    seatCount := 2
    seatPreferences := some { row := some RowPref.back, position := some PositionPref.center } }

/-- Witness for `c9_seat_preferences_noninterference` at two concrete inputs
differing only in `seatPreferences`. -/
theorem c9_seat_preferences_noninterference_witness :
    bookTickets c9Env c9InputA = bookTickets c9Env c9InputB :=
  c9_seat_preferences_noninterference c9Env c9InputA c9InputB rfl rfl rfl rfl rfl
